import Mathlib

/-!
Formal model of the Zbot execution core.

Shallow embedding of the job manager (`src/backend/app/core/jobs.py`), the
write-behind result cache (`src/backend/app/core/cache.py`) and the session
pool / retry executor (`src/backend/vghsdk/core.py`), with theorems about
their lifecycle, invariants and failure behaviour.

Modelling conventions:
- `datetime.datetime.now()` is passed in explicitly as a `now : Nat` timestamp;
- Python `dict` collections become functions `String → Option _`;
- Python `set` fields become duplicate-free `List String` maintained by an
  add-if-absent operation;
- opaque payloads (`params`, `result`, `data`, `target_info`) become `String`;
- fresh allocations (`uuid.uuid4()`, new `VghClient` objects) are modelled by
  caller-supplied identifiers resp. a monotone allocation counter.
-/

namespace Zbot

/-! ## Job manager (`src/backend/app/core/jobs.py`) -/

/-- `class JobStatus(str, Enum)`. -/
inductive JobStatus where
  | pending
  | running
  | success
  | failed
  | cancelled
deriving DecidableEq, Repr

/-- `class Job(BaseModel)`: one record per submitted unit of work. -/
structure Job where
  id : String
  task_id : String
  status : JobStatus
  params : String
  result : Option String := none
  error : Option String := none
  created_at : Nat
  completed_at : Option Nat := none
  progress : Int := 0
  cancelled : Bool := false
  total_items : Int := 0
  completed_keys : List String := []
  progress_message : String := ""
deriving DecidableEq, Repr

/-- Python `set.add`: add-if-absent on the duplicate-free key list. -/
def setAdd (keys : List String) (k : String) : List String :=
  if k ∈ keys then keys else keys ++ [k]

/-- The `JobManager._jobs` dict. -/
abbrev Jobs := String → Option Job

/-- `JobManager.create_job`: fresh record, status `pending`, progress 0. -/
def create_job (jobs : Jobs) (job_id task_id params : String) (now : Nat) : Jobs × Job :=
  let job : Job :=
    { id := job_id, task_id := task_id, status := .pending, params := params
      created_at := now, progress := 0, cancelled := false }
  (fun k => if k = job_id then some job else jobs k, job)

/-- Body of `JobManager.update_job` on the record it found: each passed field
is applied; a passed terminal status stamps `completed_at`; `success`
forces progress to 100. -/
def update_job_record (j : Job) (status : Option JobStatus) (result : Option String)
    (error : Option String) (progress : Option Int) (message : Option String)
    (now : Nat) : Job :=
  let j1 := match status with | some s => { j with status := s } | none => j
  let j2 := match result with | some r => { j1 with result := some r } | none => j1
  let j3 := match error with | some e => { j2 with error := some e } | none => j2
  let j4 := match progress with | some p => { j3 with progress := p } | none => j3
  let j5 := match message with | some m => { j4 with progress_message := m } | none => j4
  if status = some .success ∨ status = some .failed ∨ status = some .cancelled then
    let j6 := { j5 with completed_at := some now }
    if status = some .success then { j6 with progress := 100 } else j6
  else j5

/-- `JobManager.update_job`: silently ignores a missing `job_id`. -/
def update_job (jobs : Jobs) (job_id : String) (status : Option JobStatus)
    (result : Option String) (error : Option String) (progress : Option Int)
    (message : Option String) (now : Nat) : Jobs :=
  match jobs job_id with
  | some j => fun k =>
      if k = job_id then some (update_job_record j status result error progress message now)
      else jobs k
  | none => jobs

/-- `JobManager.cancel_job`: sets the `cancelled` flag on an existing job,
returns whether the job existed. -/
def cancel_job (jobs : Jobs) (job_id : String) : Jobs × Bool :=
  match jobs job_id with
  | some j => (fun k => if k = job_id then some { j with cancelled := true } else jobs k, true)
  | none => (jobs, false)

/-- `JobManager.is_cancelled`. -/
def is_cancelled (jobs : Jobs) (job_id : String) : Bool :=
  match jobs job_id with
  | some j => j.cancelled
  | none => false

/-- `JobManager.set_total_items` on the record it found. -/
def set_total_items_record (j : Job) (total : Int) : Job :=
  { j with total_items := total }

/-- Body of `JobManager.mark_item_completed` on the record it found: add the
key to `completed_keys`, record the message, and when `total_items > 0`
recompute `progress` (Python `int(len(completed_keys) / total_items * 100)`,
modelled with integer division). -/
def mark_item_completed_record (j : Job) (key message : String) : Job :=
  let j1 := { j with completed_keys := setAdd j.completed_keys key
                     progress_message := message }
  if j1.total_items > 0 then
    { j1 with progress := ((j1.completed_keys.length : Int) * 100) / j1.total_items }
  else j1

/-- `JobManager.is_item_completed`. -/
def is_item_completed (jobs : Jobs) (job_id key : String) : Bool :=
  match jobs job_id with
  | some j => if j.completed_keys ≠ [] then decide (key ∈ j.completed_keys) else false
  | none => false

/-! ## Write-behind result cache (`src/backend/app/core/cache.py`)

One JSON file per entry under `cache/{task_id}/{cache_id}.json`; the state is
the list of files on disk. -/

/-- `CACHE_TTL_HOURS = 48`. -/
def cacheTtlHours : Nat := 48

/-- One cache file's content. -/
structure CacheEntry where
  id : String
  task_id : String
  created_at : Nat
  expires_at : Nat
  params : String
  target_info : String
  data : String
deriving DecidableEq, Repr

/-- The files on disk. -/
abbrev CacheState := List CacheEntry

/-- `CacheManager._cleanup_old_caches`: delete every cache file of the given
task (expired or not). Returns the surviving state and the deleted count. -/
def cleanup_old_caches (st : CacheState) (task_id : String) : CacheState × Nat :=
  (st.filter (fun e => !(e.task_id == task_id)),
   (st.filter (fun e => e.task_id == task_id)).length)

/-- The `cache_content` dict that `save_cache` writes to disk. -/
def savedEntry (task_id params data target_info cache_id : String) (now : Nat) : CacheEntry :=
  { id := cache_id, task_id := task_id, created_at := now
    expires_at := now + cacheTtlHours, params := params
    target_info := target_info, data := data }

/-- `CacheManager.save_cache`: clean up the task's old caches first, then
store one fresh entry with `expires_at = created_at + TTL`. -/
def save_cache (st : CacheState) (task_id : String) (params data target_info : String)
    (cache_id : String) (now : Nat) : String × CacheState :=
  let st1 := (cleanup_old_caches st task_id).1
  (cache_id, st1 ++ [savedEntry task_id params data target_info cache_id now])

/-- `CacheManager.delete_cache`: remove the first file named after the id. -/
def delete_cache (st : CacheState) (cache_id : String) : CacheState × Bool :=
  match st.find? (fun e => e.id == cache_id) with
  | some _ => (st.eraseP (fun e => e.id == cache_id), true)
  | none => (st, false)

/-- `CacheManager.get_cache`: find the file; `datetime.now() > expires_at`
makes it lazily expire (delete it and report not-found). -/
def get_cache (st : CacheState) (cache_id : String) (now : Nat) :
    Option CacheEntry × CacheState :=
  match st.find? (fun e => e.id == cache_id) with
  | some e =>
      if e.expires_at < now then (none, (delete_cache st cache_id).1)
      else (some e, st)
  | none => (none, st)

/-- `CacheManager.cleanup_expired`: delete every file past its expiry. -/
def cleanup_expired (st : CacheState) (now : Nat) : CacheState × Nat :=
  (st.filter (fun e => !(decide (e.expires_at < now))),
   (st.filter (fun e => decide (e.expires_at < now))).length)

/-- Insertion step for the `result.sort(key=created_at, reverse=True)` call. -/
def insertByCreatedDesc (e : CacheEntry) : List CacheEntry → List CacheEntry
  | [] => [e]
  | x :: xs =>
      if e.created_at ≥ x.created_at then e :: x :: xs
      else x :: insertByCreatedDesc e xs

/-- Sort entries most-recently-created first. -/
def sortByCreatedDesc : List CacheEntry → List CacheEntry
  | [] => []
  | x :: xs => insertByCreatedDesc x (sortByCreatedDesc xs)

/-- `CacheManager.list_caches`: sweep expired files first, then collect the
(still unexpired) entries of the requested task, newest first. Returns the
listing and the swept state. -/
def list_caches (st : CacheState) (task_id : Option String) (now : Nat) :
    List CacheEntry × CacheState :=
  let st1 := (cleanup_expired st now).1
  let entries := st1.filter (fun e =>
    (match task_id with | some t => e.task_id == t | none => true)
      && !(decide (e.expires_at < now)))
  (sortByCreatedDesc entries, st1)

/-- `CacheManager.check_existing`: newest live entry of the task, if any. -/
def check_existing (st : CacheState) (task_id : String) (now : Nat) : Option CacheEntry :=
  (list_caches st (some task_id) now).1.head?

/-! ## Client state and authentication (`src/backend/vghsdk/core.py`, `VghClient`) -/

/-- The three per-subsystem authentication flags of a `VghClient`. -/
structure ClientState where
  is_eip_logged_in : Bool
  is_drweb_initialized : Bool
  is_cks_logged_in : Bool
deriving DecidableEq, Repr

/-- Outcome of one re-authentication round: whether `_login_eip` and
`_init_drweb` would succeed against the external system. -/
structure AuthOutcome where
  loginOk : Bool
  drwebOk : Bool
deriving DecidableEq, Repr

/-- `VghClient.ensure_eip`: EIP login then DrWeb initialization, idempotent on
already-set flags; a DrWeb failure keeps the EIP flag but reports failure. -/
def ensure_eip (o : AuthOutcome) (c : ClientState) : ClientState × Bool :=
  if c.is_eip_logged_in && c.is_drweb_initialized then (c, true)
  else
    match (if !c.is_eip_logged_in then
             (if o.loginOk then some { c with is_eip_logged_in := true } else none)
           else some c) with
    | none => (c, false)
    | some c1 =>
        if !c1.is_drweb_initialized then
          if o.drwebOk then ({ c1 with is_drweb_initialized := true }, true)
          else (c1, false)
        else (c1, true)

/-- `VghClient._handle_session_expired`: reset all authentication flags, then
re-run `ensure_eip`. -/
def handle_session_expired (o : AuthOutcome) (c : ClientState) : ClientState :=
  (ensure_eip o { c with is_eip_logged_in := false, is_drweb_initialized := false,
                         is_cks_logged_in := false }).1

/-! ## Retry executor (`src/backend/vghsdk/core.py`, `VghClient.safe_request`) -/

/-- `CRAWLER_CONFIG.max_retries` default. -/
def crawlerMaxRetries : Nat := 3

/-- `CRAWLER_CONFIG.retryable_status_codes`. -/
def retryableStatusCodes : List Nat := [408, 429, 500, 502, 503, 504]

/-- Helper for Python's substring test `pat in s` on the character list. -/
def hasSubAux (pat : List Char) : List Char → Bool
  | [] => pat == []
  | c :: t => (pat == (c :: t).take pat.length) || hasSubAux pat t

/-- Python `pat in s` on strings (used on `str(response.url)`). -/
def strIn (pat s : String) : Bool :=
  hasSubAux pat.data s.data

/-- What sending the request on one attempt does: raise a network error
(`httpx.TimeoutException` / `httpx.ConnectError`), raise any other exception,
or produce a response with a status code and a post-redirect final URL. -/
inductive SendOutcome where
  | timeoutErr
  | connectErr
  | otherErr (tag : String)
  | responds (status : Nat) (url : String)
deriving DecidableEq, Repr

/-- The last remembered network exception (`last_exception`). -/
inductive NetError where
  | timeout
  | connect
deriving DecidableEq, Repr

/-- How `safe_request` ends: return the response, raise the budget-exhausted
`Exception ... from last_exception`, or re-raise an unexpected exception. -/
inductive ReqResult where
  | ok (status : Nat) (url : String)
  | exhausted (lastExc : Option NetError)
  | raised (tag : String)
deriving DecidableEq, Repr

/-- One run of `safe_request`, instrumented with the number of attempts that
sent a request and how many of those were classified as session-expiry. -/
structure RunResult where
  result : ReqResult
  attempts : Nat
  authRecoveries : Nat
  client : ClientState
deriving DecidableEq, Repr

/-- The body of `safe_request`'s `for attempt in range(max_retries + 1)` loop,
over a stream of send outcomes and an oracle for each attempt's
re-authentication outcome. `remaining` is the number of loop iterations left;
falling off the loop raises the exhaustion failure. -/
def safe_request_loop (stream : Nat → SendOutcome) (auth : Nat → AuthOutcome) :
    Nat → Nat → Option NetError → ClientState → RunResult
  | 0, _, lastExc, c =>
      { result := .exhausted lastExc, attempts := 0, authRecoveries := 0, client := c }
  | rem + 1, attempt, lastExc, c =>
      match stream attempt with
      | .timeoutErr =>
          let r := safe_request_loop stream auth rem (attempt + 1) (some .timeout) c
          { r with attempts := r.attempts + 1 }
      | .connectErr =>
          let r := safe_request_loop stream auth rem (attempt + 1) (some .connect) c
          { r with attempts := r.attempts + 1 }
      | .otherErr tag =>
          { result := .raised tag, attempts := 1, authRecoveries := 0, client := c }
      | .responds status url =>
          if status == 401 || status == 403 then
            let c2 := handle_session_expired (auth attempt) c
            let r := safe_request_loop stream auth rem (attempt + 1) lastExc c2
            { r with attempts := r.attempts + 1, authRecoveries := r.authRecoveries + 1 }
          else if strIn "sess_exceed.php" url || strIn "login.php" url then
            let c2 := handle_session_expired (auth attempt) c
            let r := safe_request_loop stream auth rem (attempt + 1) lastExc c2
            { r with attempts := r.attempts + 1, authRecoveries := r.authRecoveries + 1 }
          else if retryableStatusCodes.contains status then
            let r := safe_request_loop stream auth rem (attempt + 1) lastExc c
            { r with attempts := r.attempts + 1 }
          else
            { result := .ok status url, attempts := 1, authRecoveries := 0, client := c }

/-- `VghClient.safe_request` with budget `max_retries + 1`. -/
def safe_request (maxRetries : Nat) (stream : Nat → SendOutcome)
    (auth : Nat → AuthOutcome) (c : ClientState) : RunResult :=
  safe_request_loop stream auth (maxRetries + 1) 0 none c

/-- An attempt outcome that `safe_request` keeps retrying on without
returning: a retryable HTTP status on a URL with no session-expiry marker. -/
def retryableOutcome : SendOutcome → Bool
  | .responds s u =>
      retryableStatusCodes.contains s && !(s == 401 || s == 403)
        && !(strIn "sess_exceed.php" u || strIn "login.php" u)
  | _ => false

/-- An attempt outcome after which the loop moves on to the next attempt
rather than returning or re-raising. -/
def continuingOutcome : SendOutcome → Bool
  | .timeoutErr => true
  | .connectErr => true
  | .otherErr _ => false
  | .responds s u =>
      (s == 401 || s == 403) || (strIn "sess_exceed.php" u || strIn "login.php" u)
        || retryableStatusCodes.contains s

/-! ## Session pool (`src/backend/vghsdk/core.py`, `SessionManager`) -/

/-- One `VghClient` object as pooled: its credentials plus an allocation
number distinguishing distinct Python object identities. -/
structure VghClientObj where
  eip_id : String
  eip_psw : String
  instanceId : Nat
deriving DecidableEq, Repr

/-- `SessionManager._clients` plus the allocation counter for fresh objects. -/
structure PoolState where
  clients : String → Option VghClientObj
  fresh : Nat

/-- The pool before any client has been created. -/
def emptyPool : PoolState := ⟨fun _ => none, 0⟩

/-- `SessionManager.get_client`: reuse on matching secret; on a different
secret delete the old client and create a fresh one; create when absent. -/
def get_client (st : PoolState) (eip_id eip_psw : String) : VghClientObj × PoolState :=
  match st.clients eip_id with
  | some client =>
      if client.eip_psw ≠ eip_psw then
        let removed : String → Option VghClientObj :=
          fun k => if k = eip_id then none else st.clients k
        let c : VghClientObj := ⟨eip_id, eip_psw, st.fresh⟩
        (c, ⟨fun k => if k = eip_id then some c else removed k, st.fresh + 1⟩)
      else (client, st)
  | none =>
      let c : VghClientObj := ⟨eip_id, eip_psw, st.fresh⟩
      (c, ⟨fun k => if k = eip_id then some c else st.clients k, st.fresh + 1⟩)

/-- Well-formedness of the pool: stored clients predate the allocation
counter and sit under their own user id. -/
def PoolInv (st : PoolState) : Prop :=
  ∀ k c, st.clients k = some c → c.instanceId < st.fresh ∧ c.eip_id = k

/-! ## Helper lemmas about `update_job_record` and `setAdd` -/

lemma update_job_record_status (j : Job) (st : Option JobStatus) (r e : Option String)
    (p : Option Int) (m : Option String) (now : Nat) :
    (update_job_record j st r e p m now).status = match st with | some s => s | none => j.status := by
  rcases st with _ | s
  · cases r <;> cases e <;> cases p <;> cases m <;> simp [update_job_record]
  · cases s <;> cases r <;> cases e <;> cases p <;> cases m <;> simp [update_job_record]

lemma update_job_record_completed_at (j : Job) (st : Option JobStatus) (r e : Option String)
    (p : Option Int) (m : Option String) (now : Nat) :
    (update_job_record j st r e p m now).completed_at =
      if st = some .success ∨ st = some .failed ∨ st = some .cancelled then some now
      else j.completed_at := by
  rcases st with _ | s
  · cases r <;> cases e <;> cases p <;> cases m <;> simp [update_job_record]
  · cases s <;> cases r <;> cases e <;> cases p <;> cases m <;> simp [update_job_record]

lemma update_job_record_progress (j : Job) (st : Option JobStatus) (r e : Option String)
    (p : Option Int) (m : Option String) (now : Nat) :
    (update_job_record j st r e p m now).progress =
      if st = some .success then 100
      else match p with | some q => q | none => j.progress := by
  rcases st with _ | s
  · cases r <;> cases e <;> cases p <;> cases m <;> simp [update_job_record]
  · cases s <;> cases r <;> cases e <;> cases p <;> cases m <;> simp [update_job_record]

lemma update_job_record_completed_keys (j : Job) (st : Option JobStatus) (r e : Option String)
    (p : Option Int) (m : Option String) (now : Nat) :
    (update_job_record j st r e p m now).completed_keys = j.completed_keys := by
  rcases st with _ | s
  · cases r <;> cases e <;> cases p <;> cases m <;> simp [update_job_record]
  · cases s <;> cases r <;> cases e <;> cases p <;> cases m <;> simp [update_job_record]

lemma setAdd_mem (ks : List String) (k : String) : k ∈ setAdd ks k := by
  by_cases h : k ∈ ks <;> simp [setAdd, h]

lemma setAdd_idem (ks : List String) (k : String) : setAdd (setAdd ks k) k = setAdd ks k := by
  by_cases h : k ∈ ks <;> simp [setAdd, h]

lemma subset_setAdd (ks : List String) (k : String) : ks ⊆ setAdd ks k := by
  by_cases h : k ∈ ks <;> simp [setAdd, h]

lemma mark_item_completed_record_keys (j : Job) (key msg : String) :
    (mark_item_completed_record j key msg).completed_keys = setAdd j.completed_keys key := by
  simp only [mark_item_completed_record]
  split <;> rfl

lemma mark_item_completed_record_total (j : Job) (key msg : String) :
    (mark_item_completed_record j key msg).total_items = j.total_items := by
  simp only [mark_item_completed_record]
  split <;> rfl

lemma mark_item_completed_record_progress (j : Job) (key msg : String) :
    (mark_item_completed_record j key msg).progress =
      if j.total_items > 0 then ((setAdd j.completed_keys key).length : Int) * 100 / j.total_items
      else j.progress := by
  unfold mark_item_completed_record
  by_cases h : j.total_items > 0 <;> simp [h]

/-! ## Claims about the job lifecycle -/

/-- A job that already finished with `success` at time 5. -/
def doneJobC1 : Job :=
  { id := "j1", task_id := "t", status := .success, params := ""
    created_at := 1, completed_at := some 5, progress := 100 }

/-- C1: the claim that a job's status never changes after reaching a terminal
state and that `completed_at` is stamped only once is false: `update_job`
applies a passed status unconditionally, so a second call passing the terminal
status `failed` to a job already `success` (completed at time 5) flips the
status and re-stamps `completed_at` to the new time 9. -/
theorem C1_counterexample :
    (update_job_record doneJobC1 (some .failed) none none none none 9).status ≠ doneJobC1.status ∧
    (update_job_record doneJobC1 (some .failed) none none none none 9).completed_at
      ≠ doneJobC1.completed_at := by
  decide

/-- C1 (amended): `update_job` applies a passed status unconditionally, even to
an already-terminal job, and stamps `completed_at` with the current time on
every call that passes a terminal status (not only the first); a call passing
no status leaves `completed_at` unchanged. Enforcing a single terminal
transition is left to the callers. -/
theorem C1_update_terminal_overwrites (j : Job) (s : JobStatus)
    (r e : Option String) (p : Option Int) (m : Option String)
    (r2 e2 : Option String) (p2 : Option Int) (m2 : Option String) (now : Nat)
    (hs : s = .success ∨ s = .failed ∨ s = .cancelled) :
    (update_job_record j (some s) r e p m now).status = s ∧
    (update_job_record j (some s) r e p m now).completed_at = some now ∧
    (update_job_record j none r2 e2 p2 m2 now).completed_at = j.completed_at := by
  refine ⟨?_, ?_, ?_⟩
  · rw [update_job_record_status]
  · rw [update_job_record_completed_at]
    rcases hs with h | h | h <;> subst h <;> simp
  · rw [update_job_record_completed_at]
    simp

/-- C1 witness: the amended statement at a concrete already-successful job. -/
theorem C1_witness :
    (update_job_record doneJobC1 (some .failed) none none none none 9).status = .failed ∧
    (update_job_record doneJobC1 (some .failed) none none none none 9).completed_at = some 9 ∧
    (update_job_record doneJobC1 none none none none none 9).completed_at = doneJobC1.completed_at :=
  C1_update_terminal_overwrites doneJobC1 .failed none none none none none none none none 9
    (Or.inr (Or.inl rfl))

/-- A successful job with progress 100, as `update_job` leaves it. -/
def doneJobC4 : Job :=
  { id := "j4", task_id := "t", status := .success, params := ""
    created_at := 1, completed_at := some 5, progress := 100 }

/-- C4: the claim that no operation can leave a `success` job with progress
different from 100 is false: a later `update_job` call that passes only
`progress=50` (no status) overwrites the progress of a job whose status is
and stays `success`. -/
theorem C4_counterexample :
    (update_job_record doneJobC4 none none none (some 50) none 9).status = .success ∧
    (update_job_record doneJobC4 none none none (some 50) none 9).progress ≠ 100 := by
  decide

/-- C4 (amended): an `update_job` call that sets status to `success` forces
progress to 100 at that call, whatever progress argument accompanies it; the
invariant is not protected afterwards — later calls passing a progress value
can move a `success` job's progress away from 100. -/
theorem C4_success_forces_progress (j : Job) (r e : Option String) (p : Option Int)
    (m : Option String) (now : Nat) :
    (update_job_record j (some .success) r e p m now).progress = 100 ∧
    (update_job_record j (some .success) r e p m now).status = .success := by
  refine ⟨?_, ?_⟩
  · rw [update_job_record_progress]; simp
  · rw [update_job_record_status]

/-- A terminal (successful) job inside the manager dict, not yet cancelled. -/
def doneJobC5 : Job :=
  { id := "j5", task_id := "t", status := .success, params := ""
    created_at := 1, completed_at := some 5, progress := 100, cancelled := false }

/-- The `_jobs` dict holding only `doneJobC5`. -/
def jobsC5 : Jobs := fun k => if k = "j5" then some doneJobC5 else none

/-- C5: the claim that `request_cancel` is a no-op on an already-terminal job
is false: `cancel_job` never looks at the status, so on a `success` job whose
`cancelled` flag is false it still sets the flag, changing the record. -/
theorem C5_counterexample :
    (cancel_job jobsC5 "j5").1 "j5" ≠ jobsC5 "j5" ∧
    (cancel_job jobsC5 "j5").1 "j5" = some { doneJobC5 with cancelled := true } := by
  decide

/-- C5 (amended): `cancel_job` on any existing job — terminal or not — sets
exactly the `cancelled` flag of that job and touches no other entry; it is a
no-op only on a missing job id. -/
theorem C5_cancel_sets_flag (jobs : Jobs) (job_id : String) (j : Job) (k : String)
    (hj : jobs job_id = some j) (hk : k ≠ job_id) :
    (cancel_job jobs job_id).1 job_id = some { j with cancelled := true } ∧
    (cancel_job jobs job_id).2 = true ∧
    (cancel_job jobs job_id).1 k = jobs k := by
  simp [cancel_job, hj, hk]

/-- C5 witness: the amended statement at the concrete one-job dict. -/
theorem C5_witness :
    (cancel_job jobsC5 "j5").1 "j5" = some { doneJobC5 with cancelled := true } ∧
    (cancel_job jobsC5 "j5").2 = true ∧
    (cancel_job jobsC5 "j5").1 "other" = jobsC5 "other" :=
  C5_cancel_sets_flag jobsC5 "j5" doneJobC5 "other" rfl (by decide)

/-- C9: marking the same checkpoint key twice is idempotent — the second mark
leaves `completed_keys` (hence its cardinality) and `progress` unchanged —
and no job operation removes keys: `update_job`, `set_total_items` and the
cancellation flag keep `completed_keys` intact, and `mark_item_completed`
only ever grows it. -/
theorem C9_checkpoint_idempotent (j : Job) (key msg msg2 : String)
    (st : Option JobStatus) (r e : Option String) (p : Option Int) (m : Option String)
    (now : Nat) (tot : Int) :
    (mark_item_completed_record (mark_item_completed_record j key msg) key msg2).completed_keys
      = (mark_item_completed_record j key msg).completed_keys ∧
    (mark_item_completed_record (mark_item_completed_record j key msg) key msg2).completed_keys.length
      = (mark_item_completed_record j key msg).completed_keys.length ∧
    (mark_item_completed_record (mark_item_completed_record j key msg) key msg2).progress
      = (mark_item_completed_record j key msg).progress ∧
    (update_job_record j st r e p m now).completed_keys = j.completed_keys ∧
    (set_total_items_record j tot).completed_keys = j.completed_keys ∧
    ({ j with cancelled := true } : Job).completed_keys = j.completed_keys ∧
    j.completed_keys ⊆ (mark_item_completed_record j key msg).completed_keys := by
  have hkeys : (mark_item_completed_record (mark_item_completed_record j key msg) key msg2).completed_keys
      = (mark_item_completed_record j key msg).completed_keys := by
    rw [mark_item_completed_record_keys, mark_item_completed_record_keys, setAdd_idem]
  refine ⟨hkeys, by rw [hkeys], ?_, update_job_record_completed_keys j st r e p m now,
    rfl, rfl, ?_⟩
  · by_cases h : j.total_items > 0 <;>
      simp [mark_item_completed_record_progress, mark_item_completed_record_total,
        mark_item_completed_record_keys, setAdd_idem, h]
  · rw [mark_item_completed_record_keys]
    exact subset_setAdd j.completed_keys key

/-! ## Helper lemmas about the cache -/

/-- Invariant: at most one cache entry (live or expired) per task id. -/
def AtMostOnePerTask (st : CacheState) : Prop :=
  ∀ t, (st.filter (fun e => e.task_id == t)).length ≤ 1

lemma atMostOnePerTask_of_sublist {st' st : CacheState} (h : st'.Sublist st)
    (hst : AtMostOnePerTask st) : AtMostOnePerTask st' :=
  fun t => le_trans (List.Sublist.length_le (h.filter _)) (hst t)

lemma delete_cache_sublist (st : CacheState) (cid : String) :
    ((delete_cache st cid).1).Sublist st := by
  unfold delete_cache
  cases st.find? (fun e => e.id == cid) <;> simp [List.eraseP_sublist]

lemma get_cache_state_sublist (st : CacheState) (cid : String) (now : Nat) :
    ((get_cache st cid now).2).Sublist st := by
  unfold get_cache
  cases hf : st.find? (fun e => e.id == cid) with
  | none => simp
  | some e =>
      by_cases hexp : e.expires_at < now <;> simp [hexp, delete_cache_sublist]

lemma length_insertByCreatedDesc (e : CacheEntry) (l : List CacheEntry) :
    (insertByCreatedDesc e l).length = l.length + 1 := by
  induction l with
  | nil => rfl
  | cons x xs ih => simp only [insertByCreatedDesc]; split <;> simp [ih]

lemma length_sortByCreatedDesc (l : List CacheEntry) :
    (sortByCreatedDesc l).length = l.length := by
  induction l with
  | nil => rfl
  | cons x xs ih => simp [sortByCreatedDesc, length_insertByCreatedDesc, ih]

lemma mem_insertByCreatedDesc {x e : CacheEntry} {l : List CacheEntry} :
    x ∈ insertByCreatedDesc e l ↔ x = e ∨ x ∈ l := by
  induction l with
  | nil => simp [insertByCreatedDesc]
  | cons y ys ih => simp only [insertByCreatedDesc]; split <;> simp [ih] <;> tauto

lemma mem_sortByCreatedDesc {x : CacheEntry} {l : List CacheEntry} :
    x ∈ sortByCreatedDesc l ↔ x ∈ l := by
  induction l with
  | nil => simp [sortByCreatedDesc]
  | cons y ys ih => simp [sortByCreatedDesc, mem_insertByCreatedDesc, ih]

lemma save_cache_state_eq (st : CacheState) (t p d g cid : String) (now : Nat) :
    (save_cache st t p d g cid now).2
      = (cleanup_old_caches st t).1 ++ [savedEntry t p d g cid now] := rfl

lemma savedEntry_task (t p d g cid : String) (now : Nat) :
    (savedEntry t p d g cid now).task_id = t := rfl

lemma save_cache_filter_eq (st : CacheState) (t p d g cid : String) (now : Nat) :
    ((save_cache st t p d g cid now).2).filter (fun e => e.task_id == t)
      = [savedEntry t p d g cid now] := by
  rw [save_cache_state_eq, List.filter_append]
  simp only [cleanup_old_caches, List.filter_filter]
  simp [savedEntry_task]

/-! ## Claims about the write-behind cache -/

/-- C6: staging a new cache entry first deletes all existing entries for that
task (expired or not), then stores the new one, so the surviving entries of
that task are exactly the new entry; the at-most-one-entry-per-task invariant
is preserved by every cache operation and `list_caches` for a task therefore
never returns more than one live entry. -/
theorem C6_single_live_entry (st : CacheState) (t p d g cid : String) (now : Nat)
    (tq cid2 : String) (hinv : AtMostOnePerTask st) :
    (save_cache st t p d g cid now).2
      = (cleanup_old_caches st t).1 ++ [savedEntry t p d g cid now] ∧
    ((save_cache st t p d g cid now).2).filter (fun e => e.task_id == t)
      = [savedEntry t p d g cid now] ∧
    AtMostOnePerTask (save_cache st t p d g cid now).2 ∧
    AtMostOnePerTask (delete_cache st cid2).1 ∧
    AtMostOnePerTask (get_cache st cid2 now).2 ∧
    AtMostOnePerTask (cleanup_expired st now).1 ∧
    ((list_caches st (some tq) now).1).length ≤ 1 := by
  refine ⟨save_cache_state_eq st t p d g cid now, save_cache_filter_eq st t p d g cid now,
    ?_, atMostOnePerTask_of_sublist (delete_cache_sublist st cid2) hinv,
    atMostOnePerTask_of_sublist (get_cache_state_sublist st cid2 now) hinv,
    atMostOnePerTask_of_sublist (List.filter_sublist st) hinv, ?_⟩
  · intro t'
    by_cases ht : t' = t
    · subst ht
      rw [save_cache_filter_eq]
      simp
    · rw [save_cache_state_eq, List.filter_append]
      have he : ((savedEntry t p d g cid now).task_id == t') = false := by
        rw [savedEntry_task]
        simp
        exact fun h => ht h.symm
      have hsub : ((cleanup_old_caches st t).1.filter (fun e => e.task_id == t')).Sublist
          (st.filter (fun e => e.task_id == t')) :=
        List.Sublist.filter _ (List.filter_sublist st)
      calc ((cleanup_old_caches st t).1.filter (fun e => e.task_id == t')
              ++ [savedEntry t p d g cid now].filter (fun e => e.task_id == t')).length
          = ((cleanup_old_caches st t).1.filter (fun e => e.task_id == t')).length := by
            simp [he]
        _ ≤ (st.filter (fun e => e.task_id == t')).length := List.Sublist.length_le hsub
        _ ≤ 1 := hinv t'
  · show ((sortByCreatedDesc _).length ≤ 1)
    rw [length_sortByCreatedDesc]
    have h1 : (((cleanup_expired st now).1).filter (fun e =>
        (e.task_id == tq) && !(decide (e.expires_at < now)))).Sublist
        (st.filter (fun e => (e.task_id == tq) && !(decide (e.expires_at < now)))) :=
      List.Sublist.filter _ (List.filter_sublist st)
    have h2 : (st.filter (fun e =>
        (e.task_id == tq) && !(decide (e.expires_at < now)))).Sublist
        (st.filter (fun e => e.task_id == tq)) :=
      List.monotone_filter_right st (fun a ha => by
        exact (Bool.and_eq_true _ _ |>.mp ha).1)
    exact le_trans (List.Sublist.length_le (h1.trans h2)) (hinv tq)

/-- The expired entry used to witness lazy expiry. -/
def expiredEntryC7 : CacheEntry :=
  { id := "c7", task_id := "t7", created_at := 2, expires_at := 50
    params := "p", target_info := "g", data := "d" }

/-- C7: an entry whose `expires_at` lies strictly in the past is lazily
expired without any sweep: `get_cache` reports not-found, `list_caches`
excludes it (every listed entry is unexpired), `get_cache` never rewrites an
entry (the resulting state is a sublist of the old one, so no expiry is ever
extended), and a stored entry's expiry is fixed at creation time as
`created_at + TTL`. -/
theorem C7_lazy_expiry (st : CacheState) (cid : String) (now : Nat) (e : CacheEntry)
    (tq : Option String) (st2 : CacheState) (t2 p2 d2 g2 cid2 : String) (now2 : Nat)
    (hfind : st.find? (fun x => x.id == cid) = some e)
    (hexp : e.expires_at < now) :
    (get_cache st cid now).1 = none ∧
    e ∉ (list_caches st tq now).1 ∧
    ((list_caches st tq now).1.all (fun x => !(decide (x.expires_at < now)))) = true ∧
    ((get_cache st cid now).2).Sublist st ∧
    (save_cache st2 t2 p2 d2 g2 cid2 now2).2
      = (cleanup_old_caches st2 t2).1 ++ [savedEntry t2 p2 d2 g2 cid2 now2] ∧
    (savedEntry t2 p2 d2 g2 cid2 now2).expires_at
      = (savedEntry t2 p2 d2 g2 cid2 now2).created_at + cacheTtlHours := by
  refine ⟨?_, ?_, ?_, get_cache_state_sublist st cid now,
    save_cache_state_eq st2 t2 p2 d2 g2 cid2 now2, rfl⟩
  · simp [get_cache, hfind, hexp]
  · intro hmem
    rw [show (list_caches st tq now).1 = sortByCreatedDesc _ from rfl,
      mem_sortByCreatedDesc] at hmem
    have := (List.mem_filter.mp hmem).2
    simp [hexp] at this
  · rw [List.all_eq_true]
    intro x hx
    rw [show (list_caches st tq now).1 = sortByCreatedDesc _ from rfl,
      mem_sortByCreatedDesc] at hx
    have := (List.mem_filter.mp hx).2
    exact (Bool.and_eq_true _ _ |>.mp this).2

/-- C6 witness: the conjunction at the empty cache state. -/
theorem C6_witness :
    (save_cache [] "t" "p" "d" "g" "c1" 10).2
      = (cleanup_old_caches [] "t").1 ++ [savedEntry "t" "p" "d" "g" "c1" 10] ∧
    ((save_cache [] "t" "p" "d" "g" "c1" 10).2).filter (fun e => e.task_id == "t")
      = [savedEntry "t" "p" "d" "g" "c1" 10] ∧
    AtMostOnePerTask (save_cache [] "t" "p" "d" "g" "c1" 10).2 ∧
    AtMostOnePerTask (delete_cache [] "c2").1 ∧
    AtMostOnePerTask (get_cache [] "c2" 10).2 ∧
    AtMostOnePerTask (cleanup_expired [] 10).1 ∧
    ((list_caches [] (some "t") 10).1).length ≤ 1 :=
  C6_single_live_entry [] "t" "p" "d" "g" "c1" 10 "t" "c2" (fun t => by simp)

/-- C7 witness: lazy expiry at a concrete one-entry state, at time 100 with
the entry expired at time 50. -/
theorem C7_witness :
    (get_cache [expiredEntryC7] "c7" 100).1 = none ∧
    expiredEntryC7 ∉ (list_caches [expiredEntryC7] (some "t7") 100).1 ∧
    ((list_caches [expiredEntryC7] (some "t7") 100).1.all
      (fun x => !(decide (x.expires_at < 100)))) = true ∧
    ((get_cache [expiredEntryC7] "c7" 100).2).Sublist [expiredEntryC7] ∧
    (save_cache [] "t" "p" "d" "g" "c1" 10).2
      = (cleanup_old_caches [] "t").1 ++ [savedEntry "t" "p" "d" "g" "c1" 10] ∧
    (savedEntry "t" "p" "d" "g" "c1" 10).expires_at
      = (savedEntry "t" "p" "d" "g" "c1" 10).created_at + cacheTtlHours :=
  C7_lazy_expiry [expiredEntryC7] "c7" 100 expiredEntryC7 (some "t7") [] "t" "p" "d" "g" "c1" 10
    (by decide) (by decide)

/-! ## Helper lemmas about the session pool -/

lemma get_client_of_lookup_eq (st : PoolState) (id psw : String) (c : VghClientObj)
    (hc : st.clients id = some c) (heq : c.eip_psw = psw) :
    get_client st id psw = (c, st) := by
  simp [get_client, hc, heq]

lemma get_client_of_lookup_ne (st : PoolState) (id psw : String) (c : VghClientObj)
    (hc : st.clients id = some c) (hne : ¬ c.eip_psw = psw) :
    get_client st id psw =
      (⟨id, psw, st.fresh⟩,
       ⟨fun k => if k = id then some ⟨id, psw, st.fresh⟩
                 else if k = id then none else st.clients k,
        st.fresh + 1⟩) := by
  simp [get_client, hc, hne]

lemma get_client_of_lookup_none (st : PoolState) (id psw : String)
    (hc : st.clients id = none) :
    get_client st id psw =
      (⟨id, psw, st.fresh⟩,
       ⟨fun k => if k = id then some ⟨id, psw, st.fresh⟩ else st.clients k,
        st.fresh + 1⟩) := by
  simp [get_client, hc]

lemma get_client_psw (st : PoolState) (id psw : String) :
    ((get_client st id psw).1).eip_psw = psw := by
  cases hc : st.clients id with
  | none => rw [get_client_of_lookup_none st id psw hc]
  | some c =>
      by_cases h : c.eip_psw = psw
      · rw [get_client_of_lookup_eq st id psw c hc h]; exact h
      · rw [get_client_of_lookup_ne st id psw c hc h]

lemma get_client_id (st : PoolState) (id psw : String) (hinv : PoolInv st) :
    ((get_client st id psw).1).eip_id = id := by
  cases hc : st.clients id with
  | none => rw [get_client_of_lookup_none st id psw hc]
  | some c =>
      by_cases h : c.eip_psw = psw
      · rw [get_client_of_lookup_eq st id psw c hc h]; exact (hinv id c hc).2
      · rw [get_client_of_lookup_ne st id psw c hc h]

lemma get_client_lookup (st : PoolState) (id psw : String) :
    ((get_client st id psw).2).clients id = some (get_client st id psw).1 := by
  cases hc : st.clients id with
  | none => rw [get_client_of_lookup_none st id psw hc]; simp
  | some c =>
      by_cases h : c.eip_psw = psw
      · rw [get_client_of_lookup_eq st id psw c hc h]; exact hc
      · rw [get_client_of_lookup_ne st id psw c hc h]; simp

lemma get_client_fresh_lt (st : PoolState) (id psw : String) (hinv : PoolInv st) :
    ((get_client st id psw).1).instanceId < ((get_client st id psw).2).fresh := by
  cases hc : st.clients id with
  | none => rw [get_client_of_lookup_none st id psw hc]; exact Nat.lt_succ_self _
  | some c =>
      by_cases h : c.eip_psw = psw
      · rw [get_client_of_lookup_eq st id psw c hc h]; exact (hinv id c hc).1
      · rw [get_client_of_lookup_ne st id psw c hc h]; exact Nat.lt_succ_self _

lemma get_client_inv (st : PoolState) (id psw : String) (hinv : PoolInv st) :
    PoolInv (get_client st id psw).2 := by
  cases hc : st.clients id with
  | none =>
      rw [get_client_of_lookup_none st id psw hc]
      intro k c h
      dsimp at h
      split at h
      · cases h
        exact ⟨Nat.lt_succ_self _, by simp_all⟩
      · exact ⟨Nat.lt_succ_of_lt (hinv k c h).1, (hinv k c h).2⟩
  | some c0 =>
      by_cases hp : c0.eip_psw = psw
      · rw [get_client_of_lookup_eq st id psw c0 hc hp]; exact hinv
      · rw [get_client_of_lookup_ne st id psw c0 hc hp]
        intro k c h
        dsimp at h
        split at h
        · cases h
          exact ⟨Nat.lt_succ_self _, by simp_all⟩
        · exact ⟨Nat.lt_succ_of_lt (hinv k c h).1, (hinv k c h).2⟩

/-! ## Claim about the session pool -/

/-- C8: acquiring a client twice with the same secret returns the same
`VghClient` object and leaves the pool untouched; acquiring with a different
secret returns a distinct fresh instance, stores it under the user id, and
removes the old instance from the pool entirely — no key of the pool maps to
it any more. -/
theorem C8_session_pool (st : PoolState) (id psw psw2 k : String)
    (hinv : PoolInv st) (hne : psw2 ≠ psw) :
    (get_client ((get_client st id psw).2) id psw).1 = (get_client st id psw).1 ∧
    (get_client ((get_client st id psw).2) id psw).2 = (get_client st id psw).2 ∧
    (get_client ((get_client st id psw).2) id psw2).1 ≠ (get_client st id psw).1 ∧
    ((get_client ((get_client st id psw).2) id psw2).2).clients id
      = some (get_client ((get_client st id psw).2) id psw2).1 ∧
    ((get_client ((get_client st id psw).2) id psw2).2).clients k
      ≠ some (get_client st id psw).1 := by
  have h1 := get_client_lookup st id psw
  have hpsw := get_client_psw st id psw
  have hid := get_client_id st id psw hinv
  have hinv1 := get_client_inv st id psw hinv
  have hlt := get_client_fresh_lt st id psw hinv
  have hsame := get_client_of_lookup_eq ((get_client st id psw).2) id psw
    (get_client st id psw).1 h1 hpsw
  have hne2 : ¬ ((get_client st id psw).1).eip_psw = psw2 := by
    rw [hpsw]; exact fun h => hne h.symm
  have hdiff := get_client_of_lookup_ne ((get_client st id psw).2) id psw2
    (get_client st id psw).1 h1 hne2
  refine ⟨by rw [hsame], by rw [hsame], ?_, ?_, ?_⟩
  · rw [hdiff]
    intro heq
    have : ((get_client st id psw).1).instanceId = ((get_client st id psw).2).fresh := by
      rw [← heq]
    omega
  · rw [hdiff]
    simp
  · rw [hdiff]
    dsimp
    by_cases hk : k = id
    · simp only [hk, if_pos rfl]
      intro heq
      have h2 := congrArg (fun o => (Option.map VghClientObj.instanceId o).getD 0) heq
      simp at h2
      omega
    · simp only [if_neg hk]
      intro heq
      exact hk ((hinv1 k _ heq).2.symm.trans hid)

/-- C8 witness: the pool statement starting from the empty pool. -/
theorem C8_witness :
    (get_client ((get_client emptyPool "u" "a").2) "u" "a").1
      = (get_client emptyPool "u" "a").1 ∧
    (get_client ((get_client emptyPool "u" "a").2) "u" "a").2
      = (get_client emptyPool "u" "a").2 ∧
    (get_client ((get_client emptyPool "u" "a").2) "u" "b").1
      ≠ (get_client emptyPool "u" "a").1 ∧
    ((get_client ((get_client emptyPool "u" "a").2) "u" "b").2).clients "u"
      = some (get_client ((get_client emptyPool "u" "a").2) "u" "b").1 ∧
    ((get_client ((get_client emptyPool "u" "a").2) "u" "b").2).clients "v"
      ≠ some (get_client emptyPool "u" "a").1 :=
  C8_session_pool emptyPool "u" "a" "b" "v"
    (fun _ _ h => Option.noConfusion h) (by decide)

/-! ## Helper lemmas about the retry executor -/

/-- Whether `safe_request` ended by raising the budget-exhausted failure. -/
def ReqResult.isExhausted : ReqResult → Bool
  | .exhausted _ => true
  | _ => false

lemma safe_request_loop_attempts_le (stream : Nat → SendOutcome) (auth : Nat → AuthOutcome) :
    ∀ (rem attempt : Nat) (lastExc : Option NetError) (c : ClientState),
      (safe_request_loop stream auth rem attempt lastExc c).attempts ≤ rem := by
  intro rem
  induction rem with
  | zero => intro attempt lastExc c; simp [safe_request_loop]
  | succ n ih =>
      intro attempt lastExc c
      simp only [safe_request_loop]
      cases stream attempt with
      | timeoutErr => exact Nat.succ_le_succ (ih _ _ _)
      | connectErr => exact Nat.succ_le_succ (ih _ _ _)
      | otherErr tag => simp
      | responds status url =>
          dsimp only
          split
          · exact Nat.succ_le_succ (ih _ _ _)
          · split
            · exact Nat.succ_le_succ (ih _ _ _)
            · split
              · exact Nat.succ_le_succ (ih _ _ _)
              · simp

lemma safe_request_loop_all_retryable (stream : Nat → SendOutcome) (auth : Nat → AuthOutcome) :
    ∀ (rem attempt : Nat) (lastExc : Option NetError) (c : ClientState),
      (∀ i, attempt ≤ i → i < attempt + rem → retryableOutcome (stream i) = true) →
      (safe_request_loop stream auth rem attempt lastExc c).result = .exhausted lastExc ∧
      (safe_request_loop stream auth rem attempt lastExc c).attempts = rem := by
  intro rem
  induction rem with
  | zero => intro attempt lastExc c _; simp [safe_request_loop]
  | succ n ih =>
      intro attempt lastExc c h
      have hcur : retryableOutcome (stream attempt) = true :=
        h attempt (Nat.le_refl _) (by omega)
      cases hs : stream attempt with
      | timeoutErr => rw [hs] at hcur; simp [retryableOutcome] at hcur
      | connectErr => rw [hs] at hcur; simp [retryableOutcome] at hcur
      | otherErr tag => rw [hs] at hcur; simp [retryableOutcome] at hcur
      | responds status url =>
          rw [hs] at hcur
          simp only [retryableOutcome, Bool.and_eq_true, Bool.not_eq_true'] at hcur
          obtain ⟨⟨hcontain, h401⟩, hmark⟩ := hcur
          have ihx := ih (attempt + 1) lastExc c (fun i hi1 hi2 => h i (by omega) (by omega))
          simp only [safe_request_loop, hs, h401, hmark, hcontain]
          simp [ihx.1, ihx.2]

lemma safe_request_loop_raises (stream : Nat → SendOutcome) (auth : Nat → AuthOutcome) :
    ∀ (i : Nat), ∀ (rem attempt : Nat) (lastExc : Option NetError) (c : ClientState) (tag : String),
      i < rem →
      (∀ j, attempt ≤ j → j < attempt + i → continuingOutcome (stream j) = true) →
      stream (attempt + i) = .otherErr tag →
      (safe_request_loop stream auth rem attempt lastExc c).result = .raised tag ∧
      (safe_request_loop stream auth rem attempt lastExc c).attempts = i + 1 := by
  intro i
  induction i with
  | zero =>
      intro rem attempt lastExc c tag hlt _ hfail
      rw [Nat.add_zero] at hfail
      match rem, hlt with
      | n + 1, _ => simp [safe_request_loop, hfail]
  | succ m ih =>
      intro rem attempt lastExc c tag hlt hpre hfail
      have hcur : continuingOutcome (stream attempt) = true :=
        hpre attempt (Nat.le_refl _) (by omega)
      have hshift : attempt + 1 + m = attempt + (m + 1) := by omega
      match rem, hlt with
      | n + 1, hlt =>
        cases hs : stream attempt with
        | timeoutErr =>
            have ihx := ih n (attempt + 1) (some .timeout) c tag (by omega)
              (fun j hj1 hj2 => hpre j (by omega) (by omega))
              (by rw [hshift]; exact hfail)
            simp only [safe_request_loop, hs]
            simp [ihx.1, ihx.2]
        | connectErr =>
            have ihx := ih n (attempt + 1) (some .connect) c tag (by omega)
              (fun j hj1 hj2 => hpre j (by omega) (by omega))
              (by rw [hshift]; exact hfail)
            simp only [safe_request_loop, hs]
            simp [ihx.1, ihx.2]
        | otherErr tag2 => rw [hs] at hcur; simp [continuingOutcome] at hcur
        | responds status url =>
            rw [hs] at hcur
            simp only [continuingOutcome, Bool.or_eq_true] at hcur
            by_cases h401 : (status == 401 || status == 403) = true
            · have ihx := ih n (attempt + 1) lastExc
                (handle_session_expired (auth attempt) c) tag (by omega)
                (fun j hj1 hj2 => hpre j (by omega) (by omega))
                (by rw [hshift]; exact hfail)
              simp only [safe_request_loop, hs, h401]
              simp [ihx.1, ihx.2]
            · by_cases hmark : (strIn "sess_exceed.php" url || strIn "login.php" url) = true
              · have ihx := ih n (attempt + 1) lastExc
                  (handle_session_expired (auth attempt) c) tag (by omega)
                  (fun j hj1 hj2 => hpre j (by omega) (by omega))
                  (by rw [hshift]; exact hfail)
                simp only [safe_request_loop, hs]
                rw [if_neg (by simp_all), if_pos hmark]
                simp [ihx.1, ihx.2]
              · have hcontain : retryableStatusCodes.contains status = true := by
                  rcases hcur with (h | h) | h
                  · exact absurd ((Bool.or_eq_true _ _).mpr h) h401
                  · exact absurd ((Bool.or_eq_true _ _).mpr h) hmark
                  · exact h
                have ihx := ih n (attempt + 1) lastExc c tag (by omega)
                  (fun j hj1 hj2 => hpre j (by omega) (by omega))
                  (by rw [hshift]; exact hfail)
                simp only [safe_request_loop, hs]
                rw [if_neg (by simp_all), if_neg (by simp_all), if_pos hcontain]
                simp [ihx.1, ihx.2]

/-! ## Claims about the retry executor -/

/-- C3: if every attempt in the budget yields a retryable status (such as
HTTP 503 on a URL without a session-expiry marker), `safe_request` terminates
by raising the exhaustion failure (carrying the remembered last exception,
here none, since no attempt raised) after exactly `max_retries + 1` attempts;
and for every stream whatsoever the loop performs at most `max_retries + 1`
attempts — it never loops forever. -/
theorem C3_exhausts_budget (maxRetries : Nat) (stream stream2 : Nat → SendOutcome)
    (auth auth2 : Nat → AuthOutcome) (c c2 : ClientState)
    (h : ∀ i, i ≤ maxRetries → retryableOutcome (stream i) = true) :
    (safe_request maxRetries stream auth c).result = .exhausted none ∧
    (safe_request maxRetries stream auth c).attempts = maxRetries + 1 ∧
    (safe_request maxRetries stream2 auth2 c2).attempts ≤ maxRetries + 1 := by
  have hx := safe_request_loop_all_retryable stream auth (maxRetries + 1) 0 none c
    (fun i hi1 hi2 => h i (by omega))
  exact ⟨hx.1, hx.2, safe_request_loop_attempts_le stream2 auth2 (maxRetries + 1) 0 none c2⟩

/-- C3 witness: a stream that always answers HTTP 503. -/
theorem C3_witness :
    (safe_request 3 (fun _ => .responds 503 "https://web9.vghtpe.gov.tw/emr/x")
      (fun _ => ⟨true, true⟩) ⟨false, false, false⟩).result = .exhausted none ∧
    (safe_request 3 (fun _ => .responds 503 "https://web9.vghtpe.gov.tw/emr/x")
      (fun _ => ⟨true, true⟩) ⟨false, false, false⟩).attempts = 3 + 1 ∧
    (safe_request 3 (fun _ => .responds 200 "https://web9.vghtpe.gov.tw/emr/x")
      (fun _ => ⟨true, true⟩) ⟨false, false, false⟩).attempts ≤ 3 + 1 :=
  C3_exhausts_budget 3 (fun _ => .responds 503 "https://web9.vghtpe.gov.tw/emr/x")
    (fun _ => .responds 200 "https://web9.vghtpe.gov.tw/emr/x")
    (fun _ => ⟨true, true⟩) (fun _ => ⟨true, true⟩)
    ⟨false, false, false⟩ ⟨false, false, false⟩ (by decide)

/-- The stream whose attempt 0 is a session-expired 401 and whose later
attempts all answer a retryable 503. -/
def c2Stream : Nat → SendOutcome := fun i =>
  if i = 0 then .responds 401 "https://web9.vghtpe.gov.tw/emr/x"
  else .responds 503 "https://web9.vghtpe.gov.tw/emr/x"

/-- Re-authentication oracle that always succeeds. -/
def c2Auth : Nat → AuthOutcome := fun _ => ⟨true, true⟩

/-- A fully logged-in client. -/
def c2Client : ClientState := ⟨true, true, false⟩

/-- C2: the claim that authentication-expiry recoveries do not consume a
failure slot is false. Formally, "the attempts available for
non-authentication failures are not reduced" would mean that every run ending
in budget exhaustion performed `max_retries + 1` non-authentication attempts;
but with `max_retries = 3` the stream {401, 503, 503, 503, …} exhausts the
budget after only 3 non-authentication attempts — the 401 recovery consumed
one of the 4 slots. -/
theorem C2_counterexample :
    ¬ (∀ (maxRetries : Nat) (stream : Nat → SendOutcome) (auth : Nat → AuthOutcome)
        (c : ClientState),
        (safe_request maxRetries stream auth c).result.isExhausted = true →
        (safe_request maxRetries stream auth c).attempts
          - (safe_request maxRetries stream auth c).authRecoveries = maxRetries + 1) := by
  intro h
  exact absurd (h 3 c2Stream c2Auth c2Client (by decide)) (by decide)

/-- C2 (amended): an attempt whose response is HTTP 401/403 or a redirect to
an expired-session/login URL resets the authentication flags, re-authenticates
(`handle_session_expired`) and continues with the next attempt — but this
recovery consumes one of the `max_retries + 1` attempt slots, so each
authentication-expiry recovery reduces by one the attempts available for
non-authentication failures. -/
theorem C2_auth_recovery_consumes_slot (stream : Nat → SendOutcome)
    (auth : Nat → AuthOutcome) (rem attempt : Nat) (lastExc : Option NetError)
    (c : ClientState) (s : Nat) (u : String)
    (hs : stream attempt = .responds s u)
    (hauth : (s == 401 || s == 403) = true
      ∨ (strIn "sess_exceed.php" u || strIn "login.php" u) = true) :
    safe_request_loop stream auth (rem + 1) attempt lastExc c =
      { result := (safe_request_loop stream auth rem (attempt + 1) lastExc
            (handle_session_expired (auth attempt) c)).result
        attempts := (safe_request_loop stream auth rem (attempt + 1) lastExc
            (handle_session_expired (auth attempt) c)).attempts + 1
        authRecoveries := (safe_request_loop stream auth rem (attempt + 1) lastExc
            (handle_session_expired (auth attempt) c)).authRecoveries + 1
        client := (safe_request_loop stream auth rem (attempt + 1) lastExc
            (handle_session_expired (auth attempt) c)).client } := by
  rcases hauth with h | h
  · simp [safe_request_loop, hs, h]
  · by_cases h401 : (s == 401 || s == 403) = true
    · simp [safe_request_loop, hs, h401]
    · simp only [safe_request_loop, hs]
      rw [if_neg (by simp_all), if_pos h]

/-- C2 witness: the amended statement at the concrete 401-then-503 stream. -/
theorem C2_witness :
    safe_request_loop c2Stream c2Auth 4 0 none c2Client =
      { result := (safe_request_loop c2Stream c2Auth 3 1 none
            (handle_session_expired (c2Auth 0) c2Client)).result
        attempts := (safe_request_loop c2Stream c2Auth 3 1 none
            (handle_session_expired (c2Auth 0) c2Client)).attempts + 1
        authRecoveries := (safe_request_loop c2Stream c2Auth 3 1 none
            (handle_session_expired (c2Auth 0) c2Client)).authRecoveries + 1
        client := (safe_request_loop c2Stream c2Auth 3 1 none
            (handle_session_expired (c2Auth 0) c2Client)).client } :=
  C2_auth_recovery_consumes_slot c2Stream c2Auth 3 0 none c2Client 401
    "https://web9.vghtpe.gov.tw/emr/x" rfl (Or.inl rfl)

/-- C10: if sending raises any exception that is not a timeout or connect
error, `safe_request` re-raises it immediately from the current attempt: when
the first `i` attempts all continue the loop and attempt `i` (within the
budget) raises an unexpected exception, the run ends as that re-raise having
performed exactly `i + 1` attempts — no backoff on it, no further attempts;
only timeout and connect errors consume an attempt and continue. -/
theorem C10_unexpected_exception_reraised (maxRetries i : Nat)
    (stream : Nat → SendOutcome) (auth : Nat → AuthOutcome) (c : ClientState)
    (tag : String) (hi : i ≤ maxRetries)
    (hpre : ∀ j, j < i → continuingOutcome (stream j) = true)
    (hfail : stream i = .otherErr tag) :
    (safe_request maxRetries stream auth c).result = .raised tag ∧
    (safe_request maxRetries stream auth c).attempts = i + 1 :=
  safe_request_loop_raises stream auth i (maxRetries + 1) 0 none c tag (by omega)
    (fun j hj1 hj2 => hpre j (by omega)) (by rw [Nat.zero_add]; exact hfail)

/-- C10 witness: attempt 0 times out, attempt 1 raises an unexpected
exception; the run re-raises it after exactly 2 attempts. -/
theorem C10_witness :
    (safe_request 3 (fun j => if j = 0 then .timeoutErr else .otherErr "boom")
      (fun _ => ⟨true, true⟩) ⟨false, false, false⟩).result = .raised "boom" ∧
    (safe_request 3 (fun j => if j = 0 then .timeoutErr else .otherErr "boom")
      (fun _ => ⟨true, true⟩) ⟨false, false, false⟩).attempts = 1 + 1 :=
  C10_unexpected_exception_reraised 3 1
    (fun j => if j = 0 then .timeoutErr else .otherErr "boom")
    (fun _ => ⟨true, true⟩) ⟨false, false, false⟩ "boom" (by decide)
    (by decide) (by decide)

end Zbot
